import Mathlib

/-!
Verification development for the arkla-backend extraction pipeline.

Shallow embedding of the Python sources under `src/arkla-backend/app/`:
  * `core/constants.py`   : retry/confidence constants and `CATEGORY_SCHEMAS`
  * `core/utils.py`       : `calculate_confidence_average`, `validate_date_format`
  * `services/gemini_engine.py` : `exponential_backoff`, `calculate_cost`,
    `_call_with_retry` (modelled as a fuel-bounded loop over an abstract
    sequence of backend outcomes), and the response-parsing phase of
    `unified_extract`
  * `services/auto_filler.py`   : the `PATTERNS` regex table,
    `_extract_single_field`, `_regex_extract`, `_parse_gemini_response`,
    `_extract_from_malformed_json`
  * `routes/process.py`   : the unified-path per-field confidence assignment
    and the confidence-scoring / manual-review block

Python floats are modelled exactly as rationals (the confidence values and
thresholds in the source are plain decimal literals and the claims are about
the algorithm, not about IEEE rounding).  Python strings are modelled as Lean
strings; `str.lower`/`str.upper`/case-insensitive regex matching are modelled
on ASCII, which covers every string the source compares.
-/

namespace Arkla

/-! ## Python string primitives -/

/-- Python whitespace characters recognised by `str.strip` / regex `\s`
(ASCII subset: space, tab, newline, carriage return, vertical tab, form feed). -/
def isPyWhitespace (c : Char) : Bool :=
  c = ' ' || c = '\t' || c = '\n' || c = '\x0d' || c = '\x0b' || c = '\x0c'

/-- Python `str.strip()` on a list of characters. -/
def pyStripList (s : List Char) : List Char :=
  ((s.dropWhile isPyWhitespace).reverse.dropWhile isPyWhitespace).reverse

/-- Python `str.strip()`. -/
def pyStrip (s : String) : String :=
  String.mk (pyStripList s.toList)

/-- Python substring containment `needle in hay` (the `in` operator on `str`). -/
def containsSub (hay needle : String) : Bool :=
  hay.toList.tails.any (fun t => needle.toList.isPrefixOf t)

/-- Python `str.lower()` (ASCII). -/
def pyLower (s : String) : String :=
  String.mk (s.toList.map Char.toLower)

/-- Python `str.upper()` (ASCII). -/
def pyUpper (s : String) : String :=
  String.mk (s.toList.map Char.toUpper)

/-- Python `s[:n]` on a string. -/
def pyTake (n : Nat) (s : String) : String :=
  String.mk (s.toList.take n)

/-! ## Constants (`app/core/constants.py`) -/

def MAX_RETRIES : Nat := 3

def INITIAL_RETRY_DELAY : Nat := 2

def MAX_RETRY_DELAY : Nat := 32

def RATE_LIMIT_DELAY : Nat := 60

def CONFIDENCE_HIGH : ℚ := 0.80

def CONFIDENCE_MEDIUM : ℚ := 0.60

def CONFIDENCE_LOW : ℚ := 0.50

def GEMINI_INPUT_COST_PER_1M : ℚ := 0.0075

def GEMINI_OUTPUT_COST_PER_1M : ℚ := 0.030

/-- `CATEGORY_SCHEMAS` from `app/core/constants.py`, as an association list in
source order. -/
def CATEGORY_SCHEMAS : List (String × List String) := [
  ("masuk_biasa",
    ["nomor_urut", "index_surat", "kode", "tgl_surat", "isi_ringkas",
     "asal_surat", "nomor_surat", "lampiran", "pengolah", "tgl_diteruskan",
     "disposisi_ketua", "tgl_masuk", "tujuan", "tgl_surat_turun",
     "disposisi_sekwan"]),
  ("undangan",
    ["nomor_urut", "index_surat", "kode", "tgl_surat_masuk",
     "tgl_penyelesaian", "isi_ringkas", "asal_surat", "nomor_surat",
     "lampiran", "keterangan", "tgl_masuk_surat", "diperuntukan",
     "tgl_surat_turun", "disposisi_sekwan"]),
  ("masuk_penting",
    ["nomor_urut", "index_surat", "kode", "tgl_surat_masuk", "isi_ringkas",
     "asal_surat", "nomor_surat", "lampiran", "pengolah", "tgl_diteruskan",
     "disposisi_ketua", "tgl_masuk", "tujuan", "tgl_surat_turun",
     "disposisi_sekwan"]),
  ("keluar",
    ["nomor_urut", "index_surat", "kode", "isi_ringkas", "kepada",
     "pengolah", "tgl_surat", "lampiran", "catatan"]),
  ("keluar_sekwan",
    ["nomor_urut", "index_surat", "kode", "isi_ringkas", "kepada",
     "pengolah", "tgl_surat", "lampiran", "catatan"]),
  ("rahasia",
    ["nomor_urut", "index_surat", "kode", "tgl_terima_surat", "isi_ringkas",
     "asal_surat", "nomor_surat", "lampiran", "pengolah", "tgl_diteruskan",
     "catatan"])
]

/-- Python `CATEGORY_SCHEMAS.get(kategori, default)`. -/
def schemaGet (kategori : String) (default : List String) : List String :=
  match CATEGORY_SCHEMAS.lookup kategori with
  | some fs => fs
  | none => default

/-! ## `app/core/utils.py`: `calculate_confidence_average`

The Python dict `confidences: Dict[str, float]` (whose values may be `None`)
is modelled as an association list of `String × Option ℚ`. -/

def calculate_confidence_average (confidences : List (String × Option ℚ)) : ℚ :=
  if confidences = [] then 0
  else
    let values := confidences.filterMap (fun p => p.2)
    if values = [] then 0 else values.sum / values.length

/-! ## `app/core/utils.py`: `validate_date_format`

`validate_date_format` tries the six `datetime.strptime` formats
`"%Y-%m-%d", "%d/%m/%Y", "%d-%m-%Y", "%d %B %Y", "%d %b %Y", "%Y/%m/%d"` in
order and renders the first successful parse back with
`strftime("%Y-%m-%d")`.  CPython's `_strptime` compiles each format to a
case-insensitive backtracking regex (`%d` to `3[01]|[12]\d|0[1-9]|[1-9]`,
`%m` to `1[0-2]|0[1-9]|[1-9]`, `%Y` to `\d\d\d\d`, whitespace to `\s+`,
`%B`/`%b` to the month names of the current locale — the process never calls
`setlocale`, so the C locale's English names apply), takes the first
backtracking-order match, requires it to span the whole string, and then
validates the calendar date via the `datetime` constructor.  Each `%`-token
parser below returns its alternatives in the regex's backtracking priority
order. -/

/-- Decimal digit character. -/
def dChar (n : Nat) : Char := Char.ofNat (48 + n)

/-- Numeric value of a digit character. -/
def dVal (c : Char) : Nat := c.toNat - 48

/-- Alternatives (in priority order) for the `%d` regex
`3[01]|[12]\d|0[1-9]|[1-9]`. -/
def pDay : List Char → List (Nat × List Char)
  | c1 :: c2 :: rest =>
      (if c1 = '3' && (c2 = '0' || c2 = '1') then [(30 + dVal c2, rest)] else [])
      ++ (if (c1 = '1' || c1 = '2') && c2.isDigit then
            [(dVal c1 * 10 + dVal c2, rest)] else [])
      ++ (if c1 = '0' && ('1' ≤ c2 && c2 ≤ '9') then [(dVal c2, rest)] else [])
      ++ (if '1' ≤ c1 && c1 ≤ '9' then [(dVal c1, c2 :: rest)] else [])
  | [c1] => if '1' ≤ c1 && c1 ≤ '9' then [(dVal c1, [])] else []
  | [] => []

/-- Alternatives (in priority order) for the `%m` regex
`1[0-2]|0[1-9]|[1-9]`. -/
def pMonthNum : List Char → List (Nat × List Char)
  | c1 :: c2 :: rest =>
      (if c1 = '1' && ('0' ≤ c2 && c2 ≤ '2') then [(10 + dVal c2, rest)] else [])
      ++ (if c1 = '0' && ('1' ≤ c2 && c2 ≤ '9') then [(dVal c2, rest)] else [])
      ++ (if '1' ≤ c1 && c1 ≤ '9' then [(dVal c1, c2 :: rest)] else [])
  | [c1] => if '1' ≤ c1 && c1 ≤ '9' then [(dVal c1, [])] else []
  | [] => []

/-- The `%Y` regex `\d\d\d\d`: exactly four digits. -/
def pYear4 : List Char → List (Nat × List Char)
  | c1 :: c2 :: c3 :: c4 :: rest =>
      if c1.isDigit && c2.isDigit && c3.isDigit && c4.isDigit then
        [(dVal c1 * 1000 + dVal c2 * 100 + dVal c3 * 10 + dVal c4, rest)]
      else []
  | _ => []

/-- Literal delimiter character in a format string. -/
def pLit (c : Char) : List Char → List (Unit × List Char)
  | x :: rest => if x = c then [((), rest)] else []
  | [] => []

/-- Whitespace in a format string becomes `\s+`: one or more whitespace
characters, alternatives longest-first (greedy). -/
def pWs1 (s : List Char) : List (Unit × List Char) :=
  let k := (s.takeWhile isPyWhitespace).length
  (List.range k).map (fun i => ((), s.drop (k - i)))

/-- Full month names of the C locale (`%B`), lowercased. -/
def monthNamesFull : List (String × Nat) :=
  [("january", 1), ("february", 2), ("march", 3), ("april", 4), ("may", 5),
   ("june", 6), ("july", 7), ("august", 8), ("september", 9), ("october", 10),
   ("november", 11), ("december", 12)]

/-- Abbreviated month names of the C locale (`%b`), lowercased. -/
def monthNamesAbbr : List (String × Nat) :=
  [("jan", 1), ("feb", 2), ("mar", 3), ("apr", 4), ("may", 5), ("jun", 6),
   ("jul", 7), ("aug", 8), ("sep", 9), ("oct", 10), ("nov", 11), ("dec", 12)]

/-- Case-insensitive month-name alternation (`%B` / `%b`): no name is a
prefix of another within either table, so at most one alternative matches. -/
def pMonthName (names : List (String × Nat)) (s : List Char) :
    List (Nat × List Char) :=
  names.filterMap (fun p =>
    if (p.1.toList).isPrefixOf (s.map Char.toLower) then
      some (p.2, s.drop p.1.length)
    else none)

/-- Sequencing of two token parsers, preserving backtracking order. -/
def pThen {α β : Type} (p : List Char → List (α × List Char))
    (q : α → List Char → List (β × List Char)) (s : List Char) :
    List (β × List Char) :=
  (p s).flatMap (fun ar => q ar.1 ar.2)

/-- One strptime format, as a parser returning (year, month, day)
alternatives in backtracking order. -/
abbrev FmtParser := List Char → List ((Nat × Nat × Nat) × List Char)

/-- Format `"%Y-%m-%d"`. -/
def fmtYmdDash : FmtParser :=
  pThen pYear4 (fun y => pThen (pLit '-') (fun _ =>
    pThen pMonthNum (fun m => pThen (pLit '-') (fun _ =>
      pThen pDay (fun d s => [((y, m, d), s)])))))

/-- Format `"%d/%m/%Y"`. -/
def fmtDmySlash : FmtParser :=
  pThen pDay (fun d => pThen (pLit '/') (fun _ =>
    pThen pMonthNum (fun m => pThen (pLit '/') (fun _ =>
      pThen pYear4 (fun y s => [((y, m, d), s)])))))

/-- Format `"%d-%m-%Y"`. -/
def fmtDmyDash : FmtParser :=
  pThen pDay (fun d => pThen (pLit '-') (fun _ =>
    pThen pMonthNum (fun m => pThen (pLit '-') (fun _ =>
      pThen pYear4 (fun y s => [((y, m, d), s)])))))

/-- Format `"%d %B %Y"`. -/
def fmtDMonthFullY : FmtParser :=
  pThen pDay (fun d => pThen pWs1 (fun _ =>
    pThen (pMonthName monthNamesFull) (fun m => pThen pWs1 (fun _ =>
      pThen pYear4 (fun y s => [((y, m, d), s)])))))

/-- Format `"%d %b %Y"`. -/
def fmtDMonthAbbrY : FmtParser :=
  pThen pDay (fun d => pThen pWs1 (fun _ =>
    pThen (pMonthName monthNamesAbbr) (fun m => pThen pWs1 (fun _ =>
      pThen pYear4 (fun y s => [((y, m, d), s)])))))

/-- Format `"%Y/%m/%d"`. -/
def fmtYmdSlash : FmtParser :=
  pThen pYear4 (fun y => pThen (pLit '/') (fun _ =>
    pThen pMonthNum (fun m => pThen (pLit '/') (fun _ =>
      pThen pDay (fun d s => [((y, m, d), s)])))))

/-- The ordered format list of `validate_date_format`. -/
def strptimeFormats : List FmtParser :=
  [fmtYmdDash, fmtDmySlash, fmtDmyDash, fmtDMonthFullY, fmtDMonthAbbrY,
   fmtYmdSlash]

/-- Days in a month under the proleptic Gregorian calendar used by
`datetime`. -/
def daysInMonth (y m : Nat) : Nat :=
  if m = 2 then
    if y % 4 = 0 && (y % 100 ≠ 0 || y % 400 = 0) then 29 else 28
  else if m = 4 || m = 6 || m = 9 || m = 11 then 30
  else 31

/-- Validity check performed by the `datetime(y, m, d)` constructor
(`MINYEAR = 1`, `MAXYEAR = 9999`). -/
def isValidDate (y m d : Nat) : Bool :=
  1 ≤ y && y ≤ 9999 && 1 ≤ m && m ≤ 12 && 1 ≤ d && d ≤ daysInMonth y m

/-- Two-digit zero-padded rendering (`%m`, `%d` in `strftime`). -/
def pad2 (n : Nat) : List Char :=
  [dChar (n / 10 % 10), dChar (n % 10)]

/-- Year rendering of glibc `strftime("%Y")`: decimal digits, no padding
below 1000 (all dates in the claims have four-digit years). -/
def renderYear (y : Nat) : List Char :=
  if y < 1000 then (toString y).toList
  else [dChar (y / 1000 % 10), dChar (y / 100 % 10), dChar (y / 10 % 10),
        dChar (y % 10)]

/-- `parsed.strftime("%Y-%m-%d")`. -/
def renderYMD (y m d : Nat) : String :=
  String.mk (renderYear y ++ '-' :: pad2 m ++ '-' :: pad2 d)

/-- One `strptime` attempt: CPython takes the regex's first
backtracking-order match, raises `ValueError` unless it spans the whole
string, then validates the date via the `datetime` constructor. -/
def strptimeTry (fmt : FmtParser) (s : List Char) : Option (Nat × Nat × Nat) :=
  match fmt s with
  | [] => none
  | (ymd, rest) :: _ =>
    if rest = [] && isValidDate ymd.1 ymd.2.1 ymd.2.2 then some ymd else none

/-- Loop body of `validate_date_format`: first format that parses (and
yields a constructible date) wins. -/
def tryFormats : List FmtParser → List Char → Option (Nat × Nat × Nat)
  | [], _ => none
  | fmt :: fmts, s =>
    match strptimeTry fmt s with
    | some ymd => some ymd
    | none => tryFormats fmts s

/-- `validate_date_format` from `app/core/utils.py`. -/
def validate_date_format (date_str : String) : Option String :=
  if date_str = "" then none
  else
    match tryFormats strptimeFormats (pyStripList date_str.toList) with
    | some (y, m, d) => some (renderYMD y m d)
    | none => none

/-! ## `app/services/gemini_engine.py`: classified retry -/

/-- Result record of a backend call (`GeminiResult` dataclass). -/
structure GeminiResult where
  success : Bool
  data : Option String := none
  input_tokens : Nat := 0
  output_tokens : Nat := 0
  cost : ℚ := 0
  error : Option String := none
  used_fallback : Bool := false
  fallback_reason : Option String := none
deriving DecidableEq

/-- `GeminiEngine.exponential_backoff`. -/
def exponential_backoff (attempt : Nat) : Nat :=
  min (INITIAL_RETRY_DELAY * 2 ^ attempt) MAX_RETRY_DELAY

/-- `GeminiEngine.calculate_cost`. -/
def calculate_cost (input_tokens output_tokens : Nat) : ℚ :=
  (input_tokens / 1000000 : ℚ) * GEMINI_INPUT_COST_PER_1M
    + (output_tokens / 1000000 : ℚ) * GEMINI_OUTPUT_COST_PER_1M

/-- Outcome of one raw backend invocation (`api_call()` inside
`_call_with_retry`): either a response with text and token counts, or an
exception whose message is inspected by the classifier. -/
inductive ApiOutcome where
  | ok (text : String) (input_tokens output_tokens : Nat)
  | err (msg : String)
deriving DecidableEq

/-- Error classes distinguished by the `except` chain of `_call_with_retry`
(spec: ErrorClass = RateLimited / Transient / FatalAuth / ServerError /
Unknown). -/
inductive ErrClass where
  | rateLimited
  | transient
  | fatalAuth
  | serverError
  | unknown
deriving DecidableEq

/-- Classification of an exception message, mirroring the `if`/`elif` chain in
`_call_with_retry` (`gemini_engine.py` lines 129-192):
substring tests on `str(e)` for the digit codes and on `str(e).lower()` for
the words, in source order. -/
def classifyError (msg : String) : ErrClass :=
  let lowered := pyLower msg
  if containsSub msg "429" || containsSub lowered "rate" then .rateLimited
  else if containsSub lowered "timeout" || containsSub lowered "connection" then .transient
  else if containsSub lowered "api key" || containsSub lowered "authentication" then .fatalAuth
  else if containsSub msg "500" || containsSub msg "503" || containsSub lowered "server" then .serverError
  else .unknown

/-- The immediate-failure result returned on a FatalAuth classification. -/
def authFailureResult : GeminiResult :=
  { success := false, error := some "GEMINI_CONFIG_ERROR",
    fallback_reason := some "Invalid API key" }

/-- The result returned after the retry loop exhausts all attempts. -/
def exhaustedResult (operation : String) : GeminiResult :=
  { success := false, error := some (pyUpper operation ++ "_FAILED"),
    fallback_reason := some "Max retries exhausted" }

/-- Observable trace of one `_call_with_retry` execution: the returned
result, the list of `time.sleep` durations (seconds) in order, and the number
of backend invocations performed. -/
structure RetryTrace where
  result : GeminiResult
  sleeps : List Nat
  calls : Nat
deriving DecidableEq

/-- The `for attempt in range(MAX_RETRIES + 1)` loop of `_call_with_retry`,
with the backend abstracted as a map from attempt index to outcome.  `fuel`
is the number of loop iterations remaining (the Python loop is bounded by
construction); `attempt` is the current 0-indexed attempt.  A retryable
failure at `attempt < MAX_RETRIES` sleeps and continues; at the last attempt
the `if attempt < MAX_RETRIES` guard fails and the loop simply advances
(ending it), after which the exhausted result is returned. -/
def retryLoop (operation : String) (outcomes : Nat → ApiOutcome) :
    Nat → Nat → RetryTrace
  | _, 0 => ⟨exhaustedResult operation, [], 0⟩
  | attempt, fuel + 1 =>
    match outcomes attempt with
    | .ok text itok otok =>
        ⟨{ success := true, data := some text, input_tokens := itok,
           output_tokens := otok, cost := calculate_cost itok otok }, [], 1⟩
    | .err msg =>
      match classifyError msg with
      | .rateLimited =>
          if attempt < MAX_RETRIES then
            let r := retryLoop operation outcomes (attempt + 1) fuel
            ⟨r.result, RATE_LIMIT_DELAY :: r.sleeps, r.calls + 1⟩
          else
            let r := retryLoop operation outcomes (attempt + 1) fuel
            ⟨r.result, r.sleeps, r.calls + 1⟩
      | .transient =>
          if attempt < MAX_RETRIES then
            let r := retryLoop operation outcomes (attempt + 1) fuel
            ⟨r.result, exponential_backoff attempt :: r.sleeps, r.calls + 1⟩
          else
            let r := retryLoop operation outcomes (attempt + 1) fuel
            ⟨r.result, r.sleeps, r.calls + 1⟩
      | .fatalAuth => ⟨authFailureResult, [], 1⟩
      | .serverError =>
          if attempt < MAX_RETRIES then
            let r := retryLoop operation outcomes (attempt + 1) fuel
            ⟨r.result, exponential_backoff attempt :: r.sleeps, r.calls + 1⟩
          else
            let r := retryLoop operation outcomes (attempt + 1) fuel
            ⟨r.result, r.sleeps, r.calls + 1⟩
      | .unknown =>
          if attempt < MAX_RETRIES then
            let r := retryLoop operation outcomes (attempt + 1) fuel
            ⟨r.result, exponential_backoff attempt :: r.sleeps, r.calls + 1⟩
          else
            let r := retryLoop operation outcomes (attempt + 1) fuel
            ⟨r.result, r.sleeps, r.calls + 1⟩

/-- `GeminiEngine._call_with_retry`, abstracted over the backend outcomes. -/
def callWithRetry (operation : String) (outcomes : Nat → ApiOutcome) : RetryTrace :=
  retryLoop operation outcomes 0 (MAX_RETRIES + 1)

/-- A non-fatal failing outcome: an exception classified as anything except
FatalAuth (RateLimited, Transient, ServerError or Unknown). -/
def nonFatalErr : ApiOutcome → Prop
  | .ok _ _ _ => False
  | .err m => classifyError m ≠ .fatalAuth

instance (o : ApiOutcome) : Decidable (nonFatalErr o) := by
  cases o with
  | ok t i j => exact isFalse (fun h => h)
  | err m => exact inferInstanceAs (Decidable (classifyError m ≠ .fatalAuth))

/-! ## Regex engine for the `auto_filler.py` pattern table

`AutoFieldFiller` uses `re.search(pattern, text, re.IGNORECASE | re.MULTILINE)`
and reads `match.group(1)`.  The patterns use only: literal characters,
character classes, alternation, non-capturing groups, `?`, greedy `*`/`+`
over classes, bounded repetition over classes, one capturing group, `^`
(multiline) and `\b`.  The matcher below is a backtracking engine over that
AST: `mrun` returns every way the expression can match a prefix of the
input in Python's backtracking priority order (greedy quantifiers longest
first, alternatives left first), and the search loop takes the leftmost
position with a match and its first outcome — exactly `re.search`. -/

/-- Regex `\w` under `re.IGNORECASE` (ASCII model: the source texts in the
claims are ASCII): letters, digits and underscore. -/
def wordCh (c : Char) : Bool := c.isAlphanum || c = '_'

/-- Regex abstract syntax for the pattern table. -/
inductive RE where
  | eps
  | cls (p : Char → Bool)
  | seq (a b : RE)
  | alt (a b : RE)
  | opt (a : RE)
  | starCls (p : Char → Bool)
  | plusCls (p : Char → Bool)
  | repCls (p : Char → Bool) (lo hi : Nat)
  | grp (a : RE)
  | bol
  | wb

/-- A match outcome: remaining input, character preceding the remaining
input (for `^` and `\b`), and the capture of group 1 if it participated. -/
abbrev MatchOut := List Char × Option Char × Option (List Char)

/-- Outcomes of a greedy class repetition consuming between `lo` and `hi`
characters, longest first. -/
def clsRunOuts (p : Char → Bool) (s : List Char) (prev : Option Char)
    (lo hi : Nat) : List MatchOut :=
  let k := min hi (s.takeWhile p).length
  if k < lo then []
  else (List.range (k + 1 - lo)).map (fun i =>
    let j := k - i
    (s.drop j, if j = 0 then prev else s.get? (j - 1), none))

/-- Backtracking matcher: all ways `r` matches a prefix of `s`, in Python's
priority order.  `prev` is the character just before `s` in the overall
subject (`none` at the start of the subject). -/
def mrun : RE → List Char → Option Char → List MatchOut
  | .eps, s, prev => [(s, prev, none)]
  | .cls p, s, _prev =>
    match s with
    | c :: rest => if p c then [(rest, some c, none)] else []
    | [] => []
  | .seq a b, s, prev =>
    (mrun a s prev).flatMap (fun o =>
      (mrun b o.1 o.2.1).map (fun o2 => (o2.1, o2.2.1, o.2.2 <|> o2.2.2)))
  | .alt a b, s, prev => mrun a s prev ++ mrun b s prev
  | .opt a, s, prev => mrun a s prev ++ [(s, prev, none)]
  | .starCls p, s, prev => clsRunOuts p s prev 0 s.length
  | .plusCls p, s, prev => clsRunOuts p s prev 1 s.length
  | .repCls p lo hi, s, prev => clsRunOuts p s prev lo hi
  | .grp a, s, prev =>
    (mrun a s prev).map (fun o => (o.1, o.2.1, some (s.take (s.length - o.1.length))))
  | .bol, s, prev =>
    if prev = none || prev = some '\n' then [(s, prev, none)] else []
  | .wb, s, prev =>
    let pw := match prev with | some c => wordCh c | none => false
    let nw := match s with | c :: _ => wordCh c | [] => false
    if pw ≠ nw then [(s, prev, none)] else []

/-- Search loop of `re.search`: try each start position left to right and
return group 1 of the first match. -/
def searchFrom (r : RE) : List Char → Option Char → Option (List Char)
  | s, prev =>
    match mrun r s prev with
    | o :: _ => some (o.2.2.getD [])
    | [] =>
      match s with
      | [] => none
      | c :: rest => searchFrom r rest (some c)

/-- `re.search(r, text, re.IGNORECASE | re.MULTILINE)` followed by
`match.group(1)` (every pattern in the table has exactly one mandatory
group). -/
def reSearchGroup1 (r : RE) (text : String) : Option String :=
  (searchFrom r text.toList none).map String.mk

/-- A literal character under `re.IGNORECASE` (ASCII case folding). -/
def litCI (c : Char) : RE := .cls (fun x => x.toLower = c.toLower)

/-- A literal string under `re.IGNORECASE`. -/
def reStr (s : String) : RE :=
  s.toList.foldr (fun c acc => RE.seq (litCI c) acc) .eps

/-- Sequencing of a pattern list. -/
def reSeq (l : List RE) : RE := l.foldr RE.seq .eps

/-- Alternation of a nonempty pattern list, left-first. -/
def reAlt : List RE → RE
  | [] => .eps
  | [r] => r
  | r :: rest => .alt r (reAlt rest)

/-! Character classes appearing in the table. -/

/-- Class `[.:\s]`. -/
def dotColonWsCh (c : Char) : Bool := c = '.' || c = ':' || isPyWhitespace c

/-- Class `[.,\s]`. -/
def dotCommaWsCh (c : Char) : Bool := c = '.' || c = ',' || isPyWhitespace c

/-- Class `[\s\-\/]` (whitespace, dash, slash). -/
def wsDashSlashCh (c : Char) : Bool := isPyWhitespace c || c = '-' || c = '/'

/-- Class `[A-Za-z0-9]`. -/
def alnumCh (c : Char) : Bool := c.isAlphanum

/-- Class `\d`. -/
def digitCh (c : Char) : Bool := c.isDigit

/-- Class `[A-Za-z]`. -/
def alphaCh (c : Char) : Bool := c.isAlpha

/-- Class `[IVXLCDM]` under `re.IGNORECASE`. -/
def romanCh (c : Char) : Bool := "ivxlcdm".toList.contains c.toLower

/-- Class `[^\n]`. -/
def notNlCh (c : Char) : Bool := c ≠ '\n'

/-- Class `[^\n,]`. -/
def notNlCommaCh (c : Char) : Bool := c ≠ '\n' && c ≠ ','

/-- Class `[^\n,;]`. -/
def notNlCommaSemiCh (c : Char) : Bool := c ≠ '\n' && c ≠ ',' && c ≠ ';'

/-- Class `[A-Za-z0-9\-\/\.]` (alphanumeric, dash, slash, dot). -/
def nomorSuratCh (c : Char) : Bool := c.isAlphanum || c = '-' || c = '/' || c = '.'

/-- Class `[A-Za-z0-9\.\-]`. -/
def kodeCh (c : Char) : Bool := c.isAlphanum || c = '.' || c = '-'

/-- Class `[A-Za-z0-9\-\/]` (alphanumeric, dash, slash; also written with the slash first). -/
def alnumDashSlashCh (c : Char) : Bool := c.isAlphanum || c = '-' || c = '/'

/-- Whitespace class `\s`. -/
def wsCh (c : Char) : Bool := isPyWhitespace c

/-! ## `AutoFieldFiller.PATTERNS` (`app/services/auto_filler.py`) -/

/-- Shape `LABEL[.:\s]*(BODY)` shared by most patterns in the table. -/
def labeled (label body : RE) : RE :=
  reSeq [label, .starCls dotColonWsCh, .grp body]

/-- Date body `\d{1,2}[\s\-\/]\w+[\s\-\/]\d{2,4}` (the separator class is
whitespace, dash or slash) shared by the labeled date patterns. -/
def dateBodyA : RE :=
  reSeq [.repCls digitCh 1 2, .cls wsDashSlashCh, .plusCls wordCh,
         .cls wsDashSlashCh, .repCls digitCh 2 4]

/-- Month-name alternation
`(?:januari|februari|maret|april|mei|juni|juli|agustus|september|oktober|november|desember)`. -/
def monthAltID : RE :=
  reAlt [reStr "januari", reStr "februari", reStr "maret", reStr "april",
         reStr "mei", reStr "juni", reStr "juli", reStr "agustus",
         reStr "september", reStr "oktober", reStr "november", reStr "desember"]

/-- Pattern `(\d{1,2}\s+(?:januari|...|desember)\s+\d{4})`. -/
def monthDatePat : RE :=
  .grp (reSeq [.repCls digitCh 1 2, .plusCls wsCh, monthAltID,
               .plusCls wsCh, .repCls digitCh 4 4])

/-- Label prefix `tgl\.?\s*WORD` (optionally continued). -/
def tglDot (rest : List RE) : RE :=
  reSeq ([reStr "tgl", .opt (litCI '.'), .starCls wsCh] ++ rest)

/-- The `PATTERNS` class attribute: field name to ordered regex rule list,
transcribed rule by rule. -/
def PATTERNS : List (String × List RE) := [
  ("nomor_urut", [
    -- (?:no(?:mor)?\.?\s*urut|nomor)[.:\s]*(\d+)
    labeled (reAlt [reSeq [reStr "no", .opt (reStr "mor"), .opt (litCI '.'),
                           .starCls wsCh, reStr "urut"],
                    reStr "nomor"])
            (.plusCls digitCh),
    -- ^(\d+)[.,\s]
    reSeq [.bol, .grp (.plusCls digitCh), .cls dotCommaWsCh]]),
  ("index_surat", [
    -- (?:index|indeks|jenis)[.:\s]*([^\n,;]+)
    labeled (reAlt [reStr "index", reStr "indeks", reStr "jenis"])
            (.plusCls notNlCommaSemiCh)]),
  ("kode", [
    -- (?:kode|klasifikasi)[.:\s]*([A-Za-z0-9\.\-]+)
    labeled (reAlt [reStr "kode", reStr "klasifikasi"]) (.plusCls kodeCh),
    -- \b(\d{3}(?:\.\d+)?)\b
    reSeq [.wb, .grp (reSeq [.repCls digitCh 3 3,
                             .opt (reSeq [litCI '.', .plusCls digitCh])]),
           .wb]]),
  ("nomor_surat", [
    -- (?:no(?:mor)?|nomor\s*surat)[.:\s]*([A-Za-z0-9\-/\.]+)
    labeled (reAlt [reSeq [reStr "no", .opt (reStr "mor")],
                    reSeq [reStr "nomor", .starCls wsCh, reStr "surat"]])
            (.plusCls nomorSuratCh),
    -- ([A-Za-z0-9]+/[A-Za-z0-9]+/[A-Za-z0-9/\-]+)
    .grp (reSeq [.plusCls alnumCh, litCI '/', .plusCls alnumCh, litCI '/',
                 .plusCls alnumDashSlashCh]),
    -- (?:^|\s)(\d+/[A-Za-z]+/[IVXLCDM]+/\d+)
    reSeq [.alt .bol (.cls wsCh),
           .grp (reSeq [.plusCls digitCh, litCI '/', .plusCls alphaCh,
                        litCI '/', .plusCls romanCh, litCI '/',
                        .plusCls digitCh])]]),
  ("tgl_surat", [
    -- (?:tanggal|tgl|dated?)[.:\s]*(\d{1,2}[\s\-/]\w+[\s\-/]\d{2,4})
    labeled (reAlt [reStr "tanggal", reStr "tgl",
                    reSeq [reStr "date", .opt (litCI 'd')]]) dateBodyA,
    monthDatePat,
    -- (\d{1,2}/\d{1,2}/\d{2,4})
    .grp (reSeq [.repCls digitCh 1 2, litCI '/', .repCls digitCh 1 2,
                 litCI '/', .repCls digitCh 2 4]),
    -- (\d{4}-\d{2}-\d{2})
    .grp (reSeq [.repCls digitCh 4 4, litCI '-', .repCls digitCh 2 2,
                 litCI '-', .repCls digitCh 2 2])]),
  ("tgl_surat_masuk", [
    -- (?:tgl\.?\s*surat\s*masuk|tanggal\s*masuk)[.:\s]*(...)
    labeled (reAlt [tglDot [reStr "surat", .starCls wsCh, reStr "masuk"],
                    reSeq [reStr "tanggal", .starCls wsCh, reStr "masuk"]])
            dateBodyA,
    monthDatePat]),
  ("tgl_masuk", [
    -- (?:tgl\.?\s*masuk|tanggal\s*masuk)[.:\s]*(...)
    labeled (reAlt [tglDot [reStr "masuk"],
                    reSeq [reStr "tanggal", .starCls wsCh, reStr "masuk"]])
            dateBodyA]),
  ("tgl_masuk_surat", [
    -- (?:tgl\.?\s*masuk\s*surat)[.:\s]*(...)
    labeled (tglDot [reStr "masuk", .starCls wsCh, reStr "surat"]) dateBodyA]),
  ("tgl_terima_surat", [
    -- (?:tgl\.?\s*terima|tanggal\s*terima)[.:\s]*(...)
    labeled (reAlt [tglDot [reStr "terima"],
                    reSeq [reStr "tanggal", .starCls wsCh, reStr "terima"]])
            dateBodyA]),
  ("tgl_diteruskan", [
    -- (?:tgl\.?\s*diteruskan|tanggal\s*diteruskan)[.:\s]*(...)
    labeled (reAlt [tglDot [reStr "diteruskan"],
                    reSeq [reStr "tanggal", .starCls wsCh, reStr "diteruskan"]])
            dateBodyA]),
  ("tgl_surat_turun", [
    -- (?:tgl\.?\s*surat\s*turun|tanggal\s*turun)[.:\s]*(...)
    labeled (reAlt [tglDot [reStr "surat", .starCls wsCh, reStr "turun"],
                    reSeq [reStr "tanggal", .starCls wsCh, reStr "turun"]])
            dateBodyA]),
  ("tgl_penyelesaian", [
    -- (?:tgl\.?\s*penyelesaian|tanggal\s*selesai)[.:\s]*(...)
    labeled (reAlt [tglDot [reStr "penyelesaian"],
                    reSeq [reStr "tanggal", .starCls wsCh, reStr "selesai"]])
            dateBodyA]),
  ("tgl_keluar", [
    -- (?:tgl\.?\s*keluar|tanggal\s*keluar)[.:\s]*(...)
    labeled (reAlt [tglDot [reStr "keluar"],
                    reSeq [reStr "tanggal", .starCls wsCh, reStr "keluar"]])
            dateBodyA]),
  ("asal_surat", [
    -- (?:dari|from|pengirim|asal)[.:\s]*([^\n]+)
    labeled (reAlt [reStr "dari", reStr "from", reStr "pengirim", reStr "asal"])
            (.plusCls notNlCh),
    -- (?:kepala|direktur|ketua)\s+([^\n,]+)
    reSeq [reAlt [reStr "kepala", reStr "direktur", reStr "ketua"],
           .plusCls wsCh, .grp (.plusCls notNlCommaCh)]]),
  ("kepada", [
    -- (?:kepada|yth|to)[.:\s]*([^\n]+)
    labeled (reAlt [reStr "kepada", reStr "yth", reStr "to"]) (.plusCls notNlCh)]),
  ("tujuan", [
    -- (?:tujuan|ditujukan)[.:\s]*([^\n]+)
    labeled (reAlt [reStr "tujuan", reStr "ditujukan"]) (.plusCls notNlCh)]),
  ("diperuntukan", [
    -- (?:untuk|diperuntukan|bagi)[.:\s]*([^\n]+)
    labeled (reAlt [reStr "untuk", reStr "diperuntukan", reStr "bagi"])
            (.plusCls notNlCh)]),
  ("pengolah", [
    -- (?:pengolah|oleh|diolah|bag(?:ian)?)[.:\s]*([^\n]+)
    labeled (reAlt [reStr "pengolah", reStr "oleh", reStr "diolah",
                    reSeq [reStr "bag", .opt (reStr "ian")]])
            (.plusCls notNlCh)]),
  ("lampiran", [
    -- (?:lampiran|lamp\.?)[.:\s]*(\d+|[^\n]+)
    labeled (reAlt [reStr "lampiran", reSeq [reStr "lamp", .opt (litCI '.')]])
            (.alt (.plusCls digitCh) (.plusCls notNlCh))]),
  ("isi_ringkas", [
    -- (?:isi\s*ringkas|perihal|hal|subject)[.:\s]*([^\n]+)
    labeled (reAlt [reSeq [reStr "isi", .starCls wsCh, reStr "ringkas"],
                    reStr "perihal", reStr "hal", reStr "subject"])
            (.plusCls notNlCh)]),
  ("disposisi_ketua", [
    -- (?:disposisi\s*ketua|catatan\s*ketua)[.:\s]*([^\n]+)
    labeled (reAlt [reSeq [reStr "disposisi", .starCls wsCh, reStr "ketua"],
                    reSeq [reStr "catatan", .starCls wsCh, reStr "ketua"]])
            (.plusCls notNlCh)]),
  ("disposisi_sekwan", [
    -- (?:disposisi\s*sekwan|catatan\s*sekwan)[.:\s]*([^\n]+)
    labeled (reAlt [reSeq [reStr "disposisi", .starCls wsCh, reStr "sekwan"],
                    reSeq [reStr "catatan", .starCls wsCh, reStr "sekwan"]])
            (.plusCls notNlCh)]),
  ("catatan", [
    -- (?:catatan|keterangan|note)[.:\s]*([^\n]+)
    labeled (reAlt [reStr "catatan", reStr "keterangan", reStr "note"])
            (.plusCls notNlCh)]),
  ("keterangan", [
    -- (?:keterangan|ket\.?)[.:\s]*([^\n]+)
    labeled (reAlt [reStr "keterangan", reSeq [reStr "ket", .opt (litCI '.')]])
            (.plusCls notNlCh)]),
  ("tingkat_keamanan", [
    -- (?:tingkat\s*keamanan|klasifikasi\s*keamanan)[.:\s]*([^\n]+)
    labeled (reAlt [reSeq [reStr "tingkat", .starCls wsCh, reStr "keamanan"],
                    reSeq [reStr "klasifikasi", .starCls wsCh, reStr "keamanan"]])
            (.plusCls notNlCh),
    -- (rahasia|sangat\s*rahasia|biasa|terbatas)
    .grp (reAlt [reStr "rahasia",
                 reSeq [reStr "sangat", .starCls wsCh, reStr "rahasia"],
                 reStr "biasa", reStr "terbatas"])]),
  ("nomor_register", [
    -- (?:no(?:mor)?\s*register|reg)[.:\s]*([A-Za-z0-9\-/]+)
    labeled (reAlt [reSeq [reStr "no", .opt (reStr "mor"), .starCls wsCh,
                           reStr "register"],
                    reStr "reg"])
            (.plusCls alnumDashSlashCh)])
]

/-! ## `AutoFieldFiller` extraction functions -/

/-- `FieldResult` dataclass. -/
structure FieldResult where
  value : Option String
  confidence : ℚ
deriving DecidableEq

/-- Loop body of `_extract_single_field`: try the rules in order; on the
first match, strip the captured group and (for date-named fields) normalize
through `validate_date_format`, assigning confidence 0.60 / 0.45 / 0.55. -/
def extractWithPatterns (text field : String) : List RE → Option String × ℚ
  | [] => (none, 0)
  | p :: rest =>
    match reSearchGroup1 p text with
    | some raw =>
      let value := pyStrip raw
      if containsSub field "tgl" || containsSub field "tanggal" then
        match validate_date_format value with
        | some normalized => (some normalized, 0.60)
        | none => (some value, 0.45)
      else (some value, 0.55)
    | none => extractWithPatterns text field rest

/-- `AutoFieldFiller._extract_single_field`. -/
def extract_single_field (text field : String) : Option String × ℚ :=
  extractWithPatterns text field ((PATTERNS.lookup field).getD [])

/-- `AutoFieldFiller._regex_extract`. -/
def regex_extract (text : String) (required_fields : List String) :
    List (String × FieldResult) :=
  required_fields.map (fun field =>
    let vc := extract_single_field text field
    (field, ⟨vc.1, vc.2⟩))

/-- Field-list computation at the head of `AutoFieldFiller.extract_fields`
(`auto_filler.py` lines 138-143): `CATEGORY_SCHEMAS.get(kategori, [])`, and
the three-field default when the result is empty. -/
def autoFillerRequiredFields (kategori : String) : List String :=
  let required := schemaGet kategori []
  if required = [] then ["nomor_surat", "tgl_surat", "isi_ringkas"]
  else required

/-! ## JSON values and `json.loads`

Model of the Python JSON data that flows between `gemini_engine.py`,
`auto_filler.py` and `process.py`.  `json.loads` in strict mode accepts
objects, arrays, strings (with escapes), numbers, `true`/`false`/`null` and
the extended constants `NaN`/`Infinity`/`-Infinity`, requires the whole
input (modulo surrounding JSON whitespace) to be one value, and represents
numbers as `int` when the literal has no fraction/exponent and as `float`
otherwise.  Lone UTF-16 surrogates from escape sequences (which Lean's
`Char` cannot hold) are mapped to U+FFFD; no claim exercises them. -/

/-- Parsed JSON value (a Python object produced by `json.loads`): `null`
is Python `None`; `num true q` is a Python `int`, `num false q` a `float`. -/
inductive JValue where
  | null
  | bool (b : Bool)
  | num (isInt : Bool) (q : ℚ)
  | nan
  | inf (neg : Bool)
  | str (s : String)
  | arr (l : List JValue)
  | obj (l : List (String × JValue))

/-- JSON structural whitespace accepted between tokens by `json.loads`. -/
def jskip (s : List Char) : List Char :=
  s.dropWhile (fun c => c = ' ' || c = '\t' || c = '\n' || c = '\x0d')

/-- Hexadecimal digit value. -/
def hexVal (c : Char) : Option Nat :=
  if '0' ≤ c && c ≤ '9' then some (c.toNat - 48)
  else if 'a' ≤ c && c ≤ 'f' then some (c.toNat - 87)
  else if 'A' ≤ c && c ≤ 'F' then some (c.toNat - 55)
  else none

/-- Four hex digits of a `\u` escape. -/
def hex4 : List Char → Option (Nat × List Char)
  | c1 :: c2 :: c3 :: c4 :: rest =>
    match hexVal c1, hexVal c2, hexVal c3, hexVal c4 with
    | some a, some b, some c, some d => some (a * 4096 + b * 256 + c * 16 + d, rest)
    | _, _, _, _ => none
  | _ => none

/-- Scalar for a `\u` code unit (surrogates map to U+FFFD). -/
def charOfUnit (n : Nat) : Char :=
  if 0xD800 ≤ n && n ≤ 0xDFFF then Char.ofNat 0xFFFD
  else Char.ofNat n

/-- JSON string body after the opening quote: literal characters above
U+001F, the eight simple escapes, and `\uXXXX` with surrogate-pair
combination. -/
def jparseStrBody : Nat → List Char → List Char → Option (String × List Char)
  | 0, _, _ => none
  | _ + 1, _, [] => none
  | fuel + 1, acc, c :: rest =>
    if c = '"' then some (String.mk acc.reverse, rest)
    else if c = '\\' then
      match rest with
      | [] => none
      | e :: r =>
        if e = '"' then jparseStrBody fuel ('"' :: acc) r
        else if e = '\\' then jparseStrBody fuel ('\\' :: acc) r
        else if e = '/' then jparseStrBody fuel ('/' :: acc) r
        else if e = 'b' then jparseStrBody fuel ('\x08' :: acc) r
        else if e = 'f' then jparseStrBody fuel ('\x0c' :: acc) r
        else if e = 'n' then jparseStrBody fuel ('\n' :: acc) r
        else if e = 'r' then jparseStrBody fuel ('\x0d' :: acc) r
        else if e = 't' then jparseStrBody fuel ('\t' :: acc) r
        else if e = 'u' then
          match hex4 r with
          | none => none
          | some (n, r2) =>
            if 0xD800 ≤ n && n ≤ 0xDBFF then
              match r2 with
              | '\\' :: 'u' :: r3 =>
                match hex4 r3 with
                | some (m, r4) =>
                  if 0xDC00 ≤ m && m ≤ 0xDFFF then
                    jparseStrBody fuel
                      (Char.ofNat (0x10000 + (n - 0xD800) * 1024 + (m - 0xDC00)) :: acc) r4
                  else jparseStrBody fuel (charOfUnit n :: acc) r2
                | none => jparseStrBody fuel (charOfUnit n :: acc) r2
              | _ => jparseStrBody fuel (charOfUnit n :: acc) r2
            else jparseStrBody fuel (charOfUnit n :: acc) r2
        else none
    else if c.toNat < 32 then none
    else jparseStrBody fuel (c :: acc) rest

/-- JSON string literal starting after the opening quote. -/
def jparseStr (s : List Char) : Option (String × List Char) :=
  jparseStrBody (s.length + 1) [] s

/-- One or more decimal digits, with their value and count. -/
def jdigits : List Char → Option (Nat × Nat × List Char)
  | s =>
    let ds := s.takeWhile Char.isDigit
    if ds = [] then none
    else some (ds.foldl (fun a c => a * 10 + dVal c) 0, ds.length, s.drop ds.length)

/-- JSON number grammar `-?(0|[1-9]\d*)(\.\d+)?([eE][+-]?\d+)?`; `isInt`
records whether fraction and exponent are both absent. -/
def jparseNum (s : List Char) : Option (JValue × List Char) :=
  let (neg, s1) := match s with
    | '-' :: r => (true, r)
    | _ => (false, s)
  match s1 with
  | [] => none
  | c :: rest1 =>
    if ¬ c.isDigit then none
    else
      let (ip, s2) : Nat × List Char :=
        if c = '0' then (0, rest1)
        else match jdigits s1 with
          | some (v, _, r) => (v, r)
          | none => (0, s1)
      let (fracPart, s3) := (match s2 with
        | '.' :: r =>
          match jdigits r with
          | some (fv, fn, r2) => (some (fv, fn), r2)
          | none => (none, s2)
        | _ => (none, s2) : Option (Nat × Nat) × List Char)
      let (expPart, s4) := (match s3 with
        | 'e' :: r | 'E' :: r =>
          let (eneg, r1) := match r with
            | '-' :: r2 => (true, r2)
            | '+' :: r2 => (false, r2)
            | _ => (false, r)
          match jdigits r1 with
          | some (ev, _, r2) => (some (if eneg then -(ev : ℤ) else (ev : ℤ)), r2)
          | none => (none, s3)
        | _ => (none, s3) : Option ℤ × List Char)
      let isInt := fracPart.isNone && expPart.isNone
      let base : ℚ := (ip : ℚ) + (match fracPart with
        | some (fv, fn) => (fv : ℚ) / (10 : ℚ) ^ fn
        | none => 0)
      let scaled : ℚ := match expPart with
        | some e => base * (10 : ℚ) ^ e
        | none => base
      some (.num isInt (if neg then -scaled else scaled), s4)

mutual

/-- One JSON value at the head of the input (no leading whitespace). -/
def jparseVal : Nat → List Char → Option (JValue × List Char)
  | 0, _ => none
  | fuel + 1, s =>
    match s with
    | [] => none
    | c :: rest =>
      if c = '"' then
        match jparseStr rest with
        | some (str, r) => some (.str str, r)
        | none => none
      else if c = '{' then
        match jskip rest with
        | '}' :: r => some (.obj [], r)
        | r1 => match jparseMembers fuel r1 [] with
          | some (l, r) => some (.obj l, r)
          | none => none
      else if c = '[' then
        match jskip rest with
        | ']' :: r => some (.arr [], r)
        | r1 => match jparseItems fuel r1 [] with
          | some (l, r) => some (.arr l, r)
          | none => none
      else if "true".toList.isPrefixOf s then some (.bool true, s.drop 4)
      else if "false".toList.isPrefixOf s then some (.bool false, s.drop 5)
      else if "null".toList.isPrefixOf s then some (.null, s.drop 4)
      else if "NaN".toList.isPrefixOf s then some (.nan, s.drop 3)
      else if "Infinity".toList.isPrefixOf s then some (.inf false, s.drop 8)
      else if "-Infinity".toList.isPrefixOf s then some (.inf true, s.drop 9)
      else jparseNum s

/-- Object members from the first key position. -/
def jparseMembers : Nat → List Char → List (String × JValue) →
    Option (List (String × JValue) × List Char)
  | 0, _, _ => none
  | fuel + 1, s, acc =>
    match s with
    | '"' :: r =>
      match jparseStr r with
      | none => none
      | some (k, r2) =>
        match jskip r2 with
        | ':' :: r4 =>
          match jparseVal fuel (jskip r4) with
          | none => none
          | some (v, r5) =>
            match jskip r5 with
            | ',' :: r7 => jparseMembers fuel (jskip r7) (acc ++ [(k, v)])
            | '}' :: r7 => some (acc ++ [(k, v)], r7)
            | _ => none
        | _ => none
    | _ => none

/-- Array items from the first item position. -/
def jparseItems : Nat → List Char → List JValue →
    Option (List JValue × List Char)
  | 0, _, _ => none
  | fuel + 1, s, acc =>
    match jparseVal fuel s with
    | none => none
    | some (v, r) =>
      match jskip r with
      | ',' :: r2 => jparseItems fuel (jskip r2) (acc ++ [v])
      | ']' :: r2 => some (acc ++ [v], r2)
      | _ => none

end

/-- `json.loads`: one JSON value spanning the entire input. -/
def jsonLoads (s : String) : Option JValue :=
  let cs := jskip s.toList
  match jparseVal (cs.length + 1) cs with
  | some (v, rest) => if jskip rest = [] then some v else none
  | none => none

/-- Python `dict.get(key)` on an object built by `json.loads` (duplicate
keys: the last occurrence wins, as in dict construction). -/
def jDictGet (l : List (String × JValue)) (k : String) : Option JValue :=
  (l.reverse.find? (fun p => p.1 = k)).map (fun p => p.2)

/-! ## Python `str()` / truthiness on JSON values -/

/-- Decimal rendering of a Python float whose value is a terminating
decimal; an approximation of `repr(float)` (shortest round-trip digits).
No claim in this development evaluates it: it only appears inside
`str(value)` on the high-confidence branch of `_parse_gemini_response`,
whose claims concern the confidence pairing, not the rendered text. -/
def pyFloatRepr (q : ℚ) : String :=
  match (List.range 18).find? (fun k => (q * (10 : ℚ) ^ k).den = 1) with
  | some 0 => toString q.num ++ ".0"
  | some k =>
    let n := (q * (10 : ℚ) ^ k).num.natAbs
    let ds := toString n
    let ds := if ds.length ≤ k then String.mk (List.replicate (k + 1 - ds.length) '0') ++ ds else ds
    (if q < 0 then "-" else "") ++ pyTake (ds.length - k) ds ++ "." ++
      String.mk (ds.toList.drop (ds.length - k))
  | none => toString q.num ++ "/" ++ toString q.den

mutual

/-- Python `str(value)` on a `json.loads` result (container rendering
follows `repr`; string escaping inside containers is not reproduced —
no claim depends on it). -/
def pyStrOfJ : JValue → String
  | .null => "None"
  | .bool b => if b then "True" else "False"
  | .num isInt q => if isInt then toString q.num else pyFloatRepr q
  | .nan => "nan"
  | .inf neg => if neg then "-inf" else "inf"
  | .str s => s
  | .arr l => "[" ++ pyReprItems l ++ "]"
  | .obj l => "\x7b" ++ pyReprPairs l ++ "\x7d"

/-- Python `repr(value)`: like `str` but strings are quoted. -/
def pyReprOfJ : JValue → String
  | .str s => "'" ++ s ++ "'"
  | v => pyStrOfJ v

/-- Comma-separated `repr`s of list items. -/
def pyReprItems : List JValue → String
  | [] => ""
  | [v] => pyReprOfJ v
  | v :: rest => pyReprOfJ v ++ ", " ++ pyReprItems rest

/-- Comma-separated `repr`s of dict pairs. -/
def pyReprPairs : List (String × JValue) → String
  | [] => ""
  | [(k, v)] => "'" ++ k ++ "': " ++ pyReprOfJ v
  | (k, v) :: rest => "'" ++ k ++ "': " ++ pyReprOfJ v ++ ", " ++ pyReprPairs rest

end

/-- Python truthiness of a value that may be `None` (`none` here). -/
def pyTruthy : Option JValue → Bool
  | none => false
  | some v =>
    match v with
    | .null => false
    | .bool b => b
    | .num _ q => q ≠ 0
    | .nan => true
    | .inf _ => true
    | .str s => s ≠ ""
    | .arr l => !l.isEmpty
    | .obj l => !l.isEmpty

/-- Python `value == "null"` for a `json.loads` value: only the string
`"null"` compares equal (no cross-type equality). -/
def isStrNull : JValue → Bool
  | .str s => s = "null"
  | _ => false

/-- Python `value is None` for a `json.loads` value (`null` becomes `None`). -/
def isJNull : JValue → Bool
  | .null => true
  | _ => false

/-! ## `AutoFieldFiller._parse_gemini_response` and the malformed-JSON path -/

/-- Class `[:\s]` of the malformed-JSON key-value pattern. -/
def colonWsCh (c : Char) : Bool := c = ':' || isPyWhitespace c

/-- Pattern `"{field}"[:\s]*"([^"]+)"` built per field (field names are
identifiers, so splicing them into the pattern adds only literals). -/
def malformedFieldPattern (field : String) : RE :=
  reSeq [litCI '"', reStr field, litCI '"', .starCls colonWsCh, litCI '"',
         .grp (.plusCls (fun c => c ≠ '"')), litCI '"']

/-- `AutoFieldFiller._extract_from_malformed_json`: per-field regex salvage
at confidence 0.60, null at 0.0. -/
def extract_from_malformed_json (response : String)
    (required_fields : List String) : List (String × FieldResult) :=
  required_fields.map (fun field =>
    match reSearchGroup1 (malformedFieldPattern field) response with
    | some v => (field, ⟨some (pyStrip v), 0.60⟩)
    | none => (field, ⟨none, 0⟩))

/-- Code-fence stripping at the head of `_parse_gemini_response`:
`response.strip()`; if it starts with three backticks, apply
`re.sub` with `^` + three backticks + `(?:json)?\s*` and then
`re.sub` removing `\s*` + three backticks + `$`. -/
def stripCodeFences (response : String) : String :=
  let s := (pyStrip response).toList
  if "```".toList.isPrefixOf s then
    let r1 := s.drop 3
    let r2 := if "json".toList.isPrefixOf r1 then r1.drop 4 else r1
    let r3 := r2.dropWhile isPyWhitespace
    let r4 :=
      if "```".toList.isPrefixOf r3.reverse then
        ((r3.reverse.drop 3).dropWhile isPyWhitespace).reverse
      else r3
    String.mk r4
  else String.mk s

/-- Field-map construction on the successful-parse branch of
`_parse_gemini_response`: `data.get(field)` (JSON `null` is Python `None`),
the `value is not None and value != "null"` test, date normalization for
fields whose name contains `tgl`/`tanggal`, `str(value).strip()` at
confidence 0.85, else null at 0.0. -/
def parsedFieldResult (data : List (String × JValue)) (field : String) :
    String × FieldResult :=
  match jDictGet data field with
  | none => (field, ⟨none, 0⟩)
  | some v =>
    if isJNull v || isStrNull v then (field, ⟨none, 0⟩)
    else
      let sv := pyStrOfJ v
      let v2 := if containsSub field "tgl" || containsSub field "tanggal" then
          (validate_date_format sv).getD sv
        else sv
      (field, ⟨some (pyStrip v2), 0.85⟩)

/-- `AutoFieldFiller._parse_gemini_response`.  `none` models the
`except Exception` branch returning Python `None` (e.g. the parsed JSON is
not an object, so `data.get` raises `AttributeError`); a `json.JSONDecodeError`
instead routes to `_extract_from_malformed_json`. -/
def parse_gemini_response (response : String) (required_fields : List String) :
    Option (List (String × FieldResult)) :=
  let response := stripCodeFences response
  match jsonLoads response with
  | some (.obj data) => some (required_fields.map (parsedFieldResult data))
  | some _ => none
  | none => some (extract_from_malformed_json response required_fields)

/-! ## `GeminiEngine.unified_extract`: response parsing phase -/

/-- Index of the first occurrence of a character. -/
def firstIdxOf (cs : List Char) (c : Char) : Option Nat :=
  cs.findIdx? (fun x => x = c)

/-- Index of the last occurrence of a character. -/
def lastIdxOf (cs : List Char) (c : Char) : Option Nat :=
  match (cs.reverse).findIdx? (fun x => x = c) with
  | some k => some (cs.length - 1 - k)
  | none => none

/-- `re.search` of `\{[\s\S]*\}` over the response text: greedy, so the
match (when the first opening brace is followed by some closing brace) runs
from the first opening brace to the last closing brace. -/
def braceSpan (s : String) : Option String :=
  let cs := s.toList
  match firstIdxOf cs '{', lastIdxOf cs '}' with
  | some i, some j =>
    if i < j then some (String.mk ((cs.drop i).take (j - i + 1))) else none
  | _, _ => none

/-- `UnifiedExtractionResult` dataclass.  Fields typed `Any` in Python hold
either a JSON value or `None`; `none` here is Python `None`. -/
structure UnifiedExtractionResult where
  success : Bool
  raw_text : Option JValue := some (.str "")
  isi_ringkas : Option JValue := some (.str "")
  fields : List (String × Option JValue) := []
  input_tokens : Nat := 0
  output_tokens : Nat := 0
  cost : ℚ := 0
  error : Option String := none

/-- Field list chosen by `unified_extract` (`gemini_engine.py` line 320):
`CATEGORY_SCHEMAS.get(kategori, ["isi_ringkas"])`. -/
def unifiedExtractFields (kategori : String) : List String :=
  schemaGet kategori ["isi_ringkas"]

/-- `parsed.get(key, default)`: the default applies only when the key is
missing; a JSON `null` value yields Python `None`. -/
def pyGetDefault (data : List (String × JValue)) (key : String)
    (default : JValue) : Option JValue :=
  match jDictGet data key with
  | none => some default
  | some .null => none
  | some v => some v

/-- `parsed.get(field)` with no default. -/
def pyGet (data : List (String × JValue)) (key : String) : Option JValue :=
  match jDictGet data key with
  | some .null => none
  | x => x

/-- JSON-candidate selection inside `unified_extract`: parse the greedy
brace span if one exists, else the whole response text. -/
def unifiedParsedJson (result : GeminiResult) : Option JValue :=
  match braceSpan (result.data.getD "") with
  | some sub => jsonLoads sub
  | none => jsonLoads (result.data.getD "")

/-- `GeminiEngine.unified_extract` from the `_call_with_retry` result
onwards (the engine is assumed configured; the claims concern the parsing
phase).  Result `none` models an exception escaping `unified_extract`
(`AttributeError` when the parsed JSON is not an object — only
`json.JSONDecodeError` is caught). -/
def unified_extract (kategori : String) (result : GeminiResult) :
    Option UnifiedExtractionResult :=
  if ¬ result.success then
    some { success := false, error := result.error,
           input_tokens := result.input_tokens,
           output_tokens := result.output_tokens }
  else
    let fields := unifiedExtractFields kategori
    let response_text := result.data.getD ""
    match unifiedParsedJson result with
    | some (.obj parsed) =>
      some { success := true,
             raw_text := pyGetDefault parsed "raw_text" (.str ""),
             isi_ringkas := pyGetDefault parsed "isi_ringkas" (.str ""),
             fields := fields.map (fun f => (f, pyGet parsed f)),
             input_tokens := result.input_tokens,
             output_tokens := result.output_tokens,
             cost := result.cost }
    | some _ => none
    | none =>
      some { success := true,
             raw_text := some (.str response_text),
             isi_ringkas := some (.str (match result.data with
               | some d => if d ≠ "" then pyTake 200 d else ""
               | none => "")),
             fields := [],
             input_tokens := result.input_tokens,
             output_tokens := result.output_tokens,
             cost := result.cost }

/-- Lines 187-188 of `process.py`: on the unified path every extracted
field gets confidence 0.85 when its value is truthy and 0.50 otherwise. -/
def unifiedFieldConfidences (extracted_fields : List (String × Option JValue)) :
    List (String × ℚ) :=
  extracted_fields.map (fun p => (p.1, if pyTruthy p.2 then (0.85 : ℚ) else 0.50))

/-! ## `app/routes/process.py`: confidence scoring -/

/-- Python dict update `d[key] = value` on an association list: replaces the
value at the first occurrence of the key, or appends the binding. -/
def dictSet (l : List (String × ℚ)) (key : String) (value : ℚ) :
    List (String × ℚ) :=
  if l.any (fun p => p.1 = key) then
    l.map (fun p => if p.1 = key then (key, value) else p)
  else l ++ [(key, value)]

/-- Lines 316-327 of `process.py`: insert the summary confidence, compute the
overall confidence, collect low-confidence fields (< 0.75) and decide
`requires_manual_review`.  Returns
(overall_confidence, low_confidence_fields, requires_manual_review). -/
def confidenceScoring (field_confidences : List (String × ℚ))
    (summary_confidence : ℚ) : ℚ × List String × Bool :=
  let fc := dictSet field_confidences "isi_ringkas" summary_confidence
  let overall := calculate_confidence_average (fc.map (fun p => (p.1, some p.2)))
  let low := (fc.filter (fun p => p.2 < 0.75)).map (fun p => p.1)
  let review := decide (overall < CONFIDENCE_MEDIUM) || decide (2 < low.length)
  (overall, low, review)

/-! # Theorems -/

/-! ## Retry protocol lemmas -/

/-- One step of the retry loop on a retryable (transient / server / unknown)
error with attempts remaining: sleep the exponential backoff and continue. -/
theorem retryLoop_step_retryable (op : String) (o : Nat → ApiOutcome)
    (attempt fuel : Nat) (m : String) (he : o attempt = .err m)
    (hc : classifyError m = .transient ∨ classifyError m = .serverError ∨
      classifyError m = .unknown)
    (hlt : attempt < MAX_RETRIES) :
    retryLoop op o attempt (fuel + 1) =
      ⟨(retryLoop op o (attempt + 1) fuel).result,
       exponential_backoff attempt :: (retryLoop op o (attempt + 1) fuel).sleeps,
       (retryLoop op o (attempt + 1) fuel).calls + 1⟩ := by
  rcases hc with h | h | h <;> simp [retryLoop, he, h, hlt]

/-- At the final attempt (no attempts remaining) the loop never sleeps. -/
theorem retryLoop_last_no_sleep (op : String) (o : Nat → ApiOutcome)
    (attempt : Nat) (hge : ¬ attempt < MAX_RETRIES) :
    (retryLoop op o attempt 1).sleeps = [] := by
  cases ho : o attempt with
  | ok t i j => simp [retryLoop, ho]
  | err m => cases hc : classifyError m <;> simp [retryLoop, ho, hc, hge]

/-- The loop performs at most `fuel` backend invocations. -/
theorem retryLoop_calls_le (op : String) (o : Nat → ApiOutcome) :
    ∀ fuel attempt, (retryLoop op o attempt fuel).calls ≤ fuel := by
  intro fuel
  induction fuel with
  | zero => intro attempt; simp [retryLoop]
  | succ n ih =>
    intro attempt
    cases ho : o attempt with
    | ok t i j => simp [retryLoop, ho]
    | err m =>
      cases hc : classifyError m <;> simp [retryLoop, ho, hc] <;>
        split <;> simp <;> exact ih (attempt + 1)

/-- When every outcome is a non-fatally failing one, the loop burns all its
fuel and returns the exhausted result. -/
theorem retryLoop_exhausts (op : String) (o : Nat → ApiOutcome)
    (h : ∀ i, nonFatalErr (o i)) :
    ∀ fuel attempt, (retryLoop op o attempt fuel).result = exhaustedResult op ∧
      (retryLoop op o attempt fuel).calls = fuel := by
  intro fuel
  induction fuel with
  | zero => intro attempt; exact ⟨rfl, rfl⟩
  | succ n ih =>
    intro attempt
    have ha := h attempt
    cases ho : o attempt with
    | ok t i j => rw [ho] at ha; exact absurd ha (fun hf => hf)
    | err m =>
      rw [ho] at ha
      cases hc : classifyError m with
      | fatalAuth => exact absurd hc ha
      | rateLimited =>
        simp only [retryLoop, ho, hc]
        split <;> simpa using ih (attempt + 1)
      | transient =>
        simp only [retryLoop, ho, hc]
        split <;> simpa using ih (attempt + 1)
      | serverError =>
        simp only [retryLoop, ho, hc]
        split <;> simpa using ih (attempt + 1)
      | unknown =>
        simp only [retryLoop, ho, hc]
        split <;> simpa using ih (attempt + 1)

/-! ## Claim C3 -/

/-- Claim C3: whenever attempts 0, 1 and 2 fail with errors classified
Transient, ServerError or Unknown, the waits before the following attempts
are exactly [2, 4, 8] seconds, and the per-attempt wait formula is
min(2 * 2^i, 32). -/
theorem c3_backoff_sequence (operation : String) (outcomes : Nat → ApiOutcome)
    (h : ∀ i, i < 3 → ∃ m, outcomes i = .err m ∧
      (classifyError m = .transient ∨ classifyError m = .serverError ∨
       classifyError m = .unknown)) :
    (callWithRetry operation outcomes).sleeps = [2, 4, 8] ∧
    ∀ i, exponential_backoff i = min (2 * 2 ^ i) 32 := by
  obtain ⟨m0, e0, c0⟩ := h 0 (by norm_num)
  obtain ⟨m1, e1, c1⟩ := h 1 (by norm_num)
  obtain ⟨m2, e2, c2⟩ := h 2 (by norm_num)
  constructor
  · show (retryLoop operation outcomes 0 (3 + 1)).sleeps = [2, 4, 8]
    rw [retryLoop_step_retryable operation outcomes 0 3 m0 e0 c0 (by decide)]
    rw [retryLoop_step_retryable operation outcomes 1 2 m1 e1 c1 (by decide)]
    rw [retryLoop_step_retryable operation outcomes 2 1 m2 e2 c2 (by decide)]
    rw [retryLoop_last_no_sleep operation outcomes 3 (by decide)]
    rfl
  · intro i
    simp [exponential_backoff, INITIAL_RETRY_DELAY, MAX_RETRY_DELAY]

/-- Witness for C3: all attempts time out; the recorded sleeps are 2, 4, 8. -/
theorem c3_backoff_sequence_witness :
    (callWithRetry "summarization" (fun _ => ApiOutcome.err "timeout")).sleeps
      = [2, 4, 8] :=
  (c3_backoff_sequence "summarization" (fun _ => ApiOutcome.err "timeout")
    (fun _ _ => ⟨"timeout", rfl, Or.inl (by decide)⟩)).1

/-! ## Claim C4 -/

/-- Claim C4: an error classified FatalAuth makes the retry loop return the
configuration-error failure immediately — no sleep and exactly one backend
invocation from that point — so a first-attempt FatalAuth means
`_call_with_retry` performs exactly one invocation in total. -/
theorem c4_fatal_auth_immediate (operation : String) (outcomes : Nat → ApiOutcome)
    (attempt fuel : Nat) (m : String) (h1 : outcomes attempt = .err m)
    (h2 : classifyError m = .fatalAuth) :
    retryLoop operation outcomes attempt (fuel + 1) = ⟨authFailureResult, [], 1⟩ ∧
    (attempt = 0 → fuel = MAX_RETRIES →
      callWithRetry operation outcomes = ⟨authFailureResult, [], 1⟩) := by
  have hstep : retryLoop operation outcomes attempt (fuel + 1) =
      ⟨authFailureResult, [], 1⟩ := by
    simp [retryLoop, h1, h2]
  refine ⟨hstep, ?_⟩
  intro ha hf
  subst ha; subst hf
  exact hstep

/-- Witness for C4: an invalid-API-key failure on the first attempt yields
the immediate failure with exactly one invocation. -/
theorem c4_fatal_auth_immediate_witness :
    callWithRetry "ocr" (fun _ => ApiOutcome.err "Invalid API key")
      = ⟨authFailureResult, [], 1⟩ :=
  (c4_fatal_auth_immediate "ocr" (fun _ => ApiOutcome.err "Invalid API key")
    0 MAX_RETRIES "Invalid API key" rfl (by decide)).2 rfl rfl

/-! ## Claim C10 -/

/-- Claim C10: for every outcome sequence the retry wrapper terminates with
a result after at most MAX_RETRIES + 1 = 4 backend invocations, and when
every attempt fails non-fatally it returns the failure tagged
`<OPERATION>_FAILED` with reason "Max retries exhausted" after exactly 4
invocations. -/
theorem c10_retry_bounded (operation : String) (outcomes : Nat → ApiOutcome) :
    (callWithRetry operation outcomes).calls ≤ MAX_RETRIES + 1 ∧
    MAX_RETRIES + 1 = 4 ∧
    ((∀ i, nonFatalErr (outcomes i)) →
      (callWithRetry operation outcomes).result = exhaustedResult operation ∧
      (callWithRetry operation outcomes).calls = 4 ∧
      (exhaustedResult operation).success = false ∧
      (exhaustedResult operation).error = some (pyUpper operation ++ "_FAILED") ∧
      (exhaustedResult operation).fallback_reason = some "Max retries exhausted") := by
  refine ⟨retryLoop_calls_le operation outcomes (MAX_RETRIES + 1) 0, rfl, ?_⟩
  intro h
  obtain ⟨hr, hc⟩ := retryLoop_exhausts operation outcomes h (MAX_RETRIES + 1) 0
  exact ⟨hr, hc, rfl, rfl, rfl⟩

/-- Witness for C10: repeated connection failures exhaust all four attempts
and produce the max-retries failure. -/
theorem c10_retry_bounded_witness :
    (callWithRetry "ocr" (fun _ => ApiOutcome.err "connection reset")).result
        = exhaustedResult "ocr" ∧
    (callWithRetry "ocr" (fun _ => ApiOutcome.err "connection reset")).calls = 4 :=
  ⟨((c10_retry_bounded "ocr" (fun _ => ApiOutcome.err "connection reset")).2.2
      (fun _ => by decide)).1,
   ((c10_retry_bounded "ocr" (fun _ => ApiOutcome.err "connection reset")).2.2
      (fun _ => by decide)).2.1⟩

/-! ## Claim C5 -/

/-- Claim C5: with the summary confidence included in the map,
`requires_manual_review` is true exactly when the overall confidence is
below 0.60 or strictly more than 2 fields have confidence below 0.75. -/
theorem c5_manual_review_iff (field_confidences : List (String × ℚ))
    (summary_confidence : ℚ) :
    (confidenceScoring field_confidences summary_confidence).2.2 = true ↔
      ((confidenceScoring field_confidences summary_confidence).1 < 0.60 ∨
       2 < ((dictSet field_confidences "isi_ringkas" summary_confidence).filter
              (fun p => p.2 < 0.75)).length) := by
  simp [confidenceScoring, CONFIDENCE_MEDIUM]

/-- Witness for C5: a map with three low-confidence fields requires review. -/
theorem c5_manual_review_iff_witness :
    (confidenceScoring [("a", 0.9), ("b", 0.7), ("c", 0.7)] 0.7).2.2 = true :=
  (c5_manual_review_iff [("a", 0.9), ("b", 0.7), ("c", 0.7)] 0.7).mpr
    (Or.inr (by simp [dictSet, List.filter]; norm_num))

/-! ## Claim C6 -/

/-- Claim C6: the overall confidence is the arithmetic mean of the non-null
values, and exactly 0 when the mapping is empty or all-null. -/
theorem c6_confidence_average (confidences : List (String × Option ℚ)) :
    (confidences.filterMap (fun p => p.2) ≠ [] →
      calculate_confidence_average confidences =
        (confidences.filterMap (fun p => p.2)).sum /
          (confidences.filterMap (fun p => p.2)).length) ∧
    (confidences.filterMap (fun p => p.2) = [] →
      calculate_confidence_average confidences = 0) := by
  constructor
  · intro h
    have hne : confidences ≠ [] := by
      intro he; rw [he] at h; simp at h
    simp only [calculate_confidence_average, if_neg hne, if_neg h]
  · intro h
    by_cases hc : confidences = []
    · simp [calculate_confidence_average, hc]
    · simp only [calculate_confidence_average, if_neg hc, h]
      simp

/-- Witness for C6: one non-null value 0.8 among a null gives mean 0.8. -/
theorem c6_confidence_average_witness :
    calculate_confidence_average [("a", some (0.8 : ℚ)), ("b", none)] = 0.8 := by
  have h := (c6_confidence_average [("a", some (0.8 : ℚ)), ("b", none)]).1 (by decide)
  simpa using h

/-! ## Claim C1 -/

/-- Claim C1 evaluated at its failing input: on the text
"Nomor Surat: 123/ABC/2026" the first `nomor_surat` rule's leading
alternative matches the label word "Nomor" alone, the class consumes the
following space, and group 1 captures "Surat" — not "123/ABC/2026" as the
claim states (the `nomor` + whitespace + `surat` alternative is shadowed and
can never win).  The no-match half of the claim does hold: text matching no
rule yields (null, 0.0). -/
theorem c1_nomor_surat_failing_input :
    extract_single_field "Nomor Surat: 123/ABC/2026" "nomor_surat"
        = (some "Surat", 0.55) ∧
    (some "Surat" : Option String) ≠ some "123/ABC/2026" ∧
    extract_single_field "tanpa pola apapun" "nomor_surat" = (none, 0) := by
  refine ⟨rfl, by simp, rfl⟩

/-! ## Claim C7 -/

/-- Claim C7: when the backend call succeeded but neither the brace span nor
the full response parses as JSON, `unified_extract` still succeeds, taking
the whole raw response as the text, its first 200 characters as the summary,
and an empty field map. -/
theorem c7_unparseable_degrades (kategori : String) (result : GeminiResult)
    (hs : result.success = true) (hp : unifiedParsedJson result = none) :
    ∃ u, unified_extract kategori result = some u ∧
      u.success = true ∧
      u.raw_text = some (.str (result.data.getD "")) ∧
      u.isi_ringkas = some (.str (pyTake 200 (result.data.getD ""))) ∧
      u.fields = [] := by
  refine ⟨{ success := true,
            raw_text := some (.str (result.data.getD "")),
            isi_ringkas := some (.str (match result.data with
              | some d => if d ≠ "" then pyTake 200 d else ""
              | none => "")),
            fields := [],
            input_tokens := result.input_tokens,
            output_tokens := result.output_tokens,
            cost := result.cost }, ?_, rfl, rfl, ?_, rfl⟩
  · simp only [unified_extract, hs, hp]
    simp
  · cases hd : result.data with
    | none => rfl
    | some d =>
      by_cases he : d = ""
      · subst he; rfl
      · simp [he]

/-- Witness for C7: a response with an unbalanced opening brace degrades to
a raw-text success. -/
theorem c7_unparseable_degrades_witness :
    ∃ u, unified_extract "undangan"
        { success := true, data := some "\x7b unbalanced" } = some u ∧
      u.success = true ∧
      u.raw_text = some (.str "\x7b unbalanced") ∧
      u.isi_ringkas = some (.str (pyTake 200 "\x7b unbalanced")) ∧
      u.fields = [] := by
  have h := c7_unparseable_degrades "undangan"
    { success := true, data := some "\x7b unbalanced" } rfl rfl
  simpa using h

/-! ## Claim C8 -/

/-- Counterexample to claim C8 as stated: for a category identifier absent
from the schema map, `unified_extract` uses the single-field default
["isi_ringkas"], not the three-field default set. -/
theorem c8_unified_default_counterexample :
    unifiedExtractFields "kategori_tak_dikenal" = ["isi_ringkas"] ∧
    unifiedExtractFields "kategori_tak_dikenal"
      ≠ ["nomor_surat", "tgl_surat", "isi_ringkas"] := by
  constructor <;> decide

/-- Claim C8 as amended: every compiled-in category maps to a non-empty
field list; for an unknown category `AutoFieldFiller.extract_fields` falls
back to the three-field default while `unified_extract` falls back to
["isi_ringkas"] only. -/
theorem c8_schema_defaults :
    (∀ kategori fields, (kategori, fields) ∈ CATEGORY_SCHEMAS → fields ≠ []) ∧
    (∀ kategori, CATEGORY_SCHEMAS.lookup kategori = none →
      autoFillerRequiredFields kategori
          = ["nomor_surat", "tgl_surat", "isi_ringkas"] ∧
      unifiedExtractFields kategori = ["isi_ringkas"]) := by
  constructor
  · intro kategori fields h
    simp only [CATEGORY_SCHEMAS, List.mem_cons, List.not_mem_nil, or_false,
      Prod.mk.injEq] at h
    rcases h with ⟨_, rfl⟩ | ⟨_, rfl⟩ | ⟨_, rfl⟩ | ⟨_, rfl⟩ | ⟨_, rfl⟩ | ⟨_, rfl⟩ <;>
      simp
  · intro kategori h
    constructor
    · simp [autoFillerRequiredFields, schemaGet, h]
    · simp [unifiedExtractFields, schemaGet, h]

/-- Witness for C8: the "keluar" category's fields are non-empty, and the
unknown category "xyz" gets the two documented defaults. -/
theorem c8_schema_defaults_witness :
    ["nomor_urut", "index_surat", "kode", "isi_ringkas", "kepada",
     "pengolah", "tgl_surat", "lampiran", "catatan"] ≠ ([] : List String) ∧
    autoFillerRequiredFields "xyz" = ["nomor_surat", "tgl_surat", "isi_ringkas"] ∧
    unifiedExtractFields "xyz" = ["isi_ringkas"] :=
  ⟨c8_schema_defaults.1 "keluar" _ (by decide),
   (c8_schema_defaults.2 "xyz" (by decide)).1,
   (c8_schema_defaults.2 "xyz" (by decide)).2⟩

/-! ## Claim C9 -/

/-- In the pattern-fallback extractor, a null value only arises from the
rule-list fallthrough, which carries confidence 0. -/
theorem extractWithPatterns_null (text field : String) :
    ∀ pats, (extractWithPatterns text field pats).1 = none →
      (extractWithPatterns text field pats).2 = 0 := by
  intro pats
  induction pats with
  | nil => intro _; rfl
  | cons p rest ih =>
    intro h
    simp only [extractWithPatterns] at h ⊢
    cases hs : reSearchGroup1 p text with
    | none =>
      rw [hs] at h
      exact ih h
    | some raw =>
      exfalso
      rw [hs] at h
      by_cases hd : (containsSub field "tgl" || containsSub field "tanggal") = true
      · cases hv : validate_date_format (pyStrip raw) with
        | none => simp [hd, hv] at h
        | some n => simp [hd, hv] at h
      · simp only [Bool.not_eq_true] at hd
        simp [hd] at h

/-- Counterexample to claim C9 as stated: on the unified extraction path a
field whose extracted value is null receives confidence 0.50, not 0.0
(`process.py` line 188 assigns 0.50 to every falsy value). -/
theorem c9_null_confidence_counterexample :
    (unified_extract "zzz"
        { success := true,
          data := some "\x7b\"raw_text\": \"abc\", \"isi_ringkas\": null\x7d" }).map
      (fun u => (u.fields.map (fun p => (p.1, p.2.isNone)),
                 unifiedFieldConfidences u.fields))
      = some ([("isi_ringkas", true)], [("isi_ringkas", 0.50)]) ∧
    (0.50 : ℚ) ≠ 0 := by
  constructor
  · rfl
  · norm_num

/-- Claim C9 as amended: on every `AutoFieldFiller` path (regex fallback,
well-formed Gemini JSON, malformed-JSON salvage) a null value pairs with
confidence exactly 0; on the unified path of `process_surat`, a field whose
value is null instead receives confidence 0.50. -/
theorem c9_null_zero_confidence :
    (∀ text field, (extract_single_field text field).1 = none →
      (extract_single_field text field).2 = 0) ∧
    (∀ text fields field r, (field, r) ∈ regex_extract text fields →
      r.value = none → r.confidence = 0) ∧
    (∀ resp fields field r, (field, r) ∈ extract_from_malformed_json resp fields →
      r.value = none → r.confidence = 0) ∧
    (∀ resp fields l field r, parse_gemini_response resp fields = some l →
      (field, r) ∈ l → r.value = none → r.confidence = 0) ∧
    (∀ extracted field, (field, (none : Option JValue)) ∈ extracted →
      (field, (0.50 : ℚ)) ∈ unifiedFieldConfidences extracted) := by
  have hsingle : ∀ text field, (extract_single_field text field).1 = none →
      (extract_single_field text field).2 = 0 := by
    intro text field h
    exact extractWithPatterns_null text field _ h
  have hmal : ∀ resp fields field r,
      (field, r) ∈ extract_from_malformed_json resp fields →
      r.value = none → r.confidence = 0 := by
    intro resp fields field r hm hv
    simp only [extract_from_malformed_json, List.mem_map] at hm
    obtain ⟨f, _, hf⟩ := hm
    cases hs : reSearchGroup1 (malformedFieldPattern f) resp with
    | some v =>
      rw [hs] at hf
      injection hf with h1 h2
      rw [← h2] at hv
      simp at hv
    | none =>
      rw [hs] at hf
      injection hf with h1 h2
      rw [← h2]
  refine ⟨hsingle, ?_, hmal, ?_, ?_⟩
  · intro text fields field r hm hv
    simp only [regex_extract, List.mem_map] at hm
    obtain ⟨f, _, hf⟩ := hm
    injection hf with h1 h2
    rw [← h2] at hv ⊢
    exact hsingle text f hv
  · intro resp fields l field r hp hm hv
    simp only [parse_gemini_response] at hp
    cases hj : jsonLoads (stripCodeFences resp) with
    | none =>
      rw [hj] at hp
      have hl := Option.some.inj hp
      rw [← hl] at hm
      exact hmal (stripCodeFences resp) fields field r hm hv
    | some v =>
      cases v with
      | obj data =>
        rw [hj] at hp
        have hl := Option.some.inj hp
        rw [← hl] at hm
        simp only [List.mem_map] at hm
        obtain ⟨f, _, hf⟩ := hm
        simp only [parsedFieldResult] at hf
        cases hdg : jDictGet data f with
        | none =>
          rw [hdg] at hf
          injection hf with h1 h2
          rw [← h2]
        | some v2 =>
          rw [hdg] at hf
          by_cases hn : (isJNull v2 || isStrNull v2) = true
          · simp only [hn, if_true] at hf
            injection hf with h1 h2
            rw [← h2]
          · simp only [Bool.not_eq_true] at hn
            simp only [hn, Bool.false_eq_true, if_false] at hf
            injection hf with h1 h2
            rw [← h2] at hv
            simp at hv
      | null => rw [hj] at hp; exact Option.noConfusion hp
      | bool b => rw [hj] at hp; exact Option.noConfusion hp
      | num i q => rw [hj] at hp; exact Option.noConfusion hp
      | nan => rw [hj] at hp; exact Option.noConfusion hp
      | inf b => rw [hj] at hp; exact Option.noConfusion hp
      | str s => rw [hj] at hp; exact Option.noConfusion hp
      | arr a => rw [hj] at hp; exact Option.noConfusion hp
  · intro extracted field hm
    simp only [unifiedFieldConfidences, List.mem_map]
    exact ⟨(field, none), hm, by simp [pyTruthy]⟩

/-- Witness for C9 (amended): a no-match regex extraction carries
confidence 0, and a null unified field is mapped to confidence 0.50. -/
theorem c9_null_zero_confidence_witness :
    (extract_single_field "tanpa apapun" "kepada").2 = 0 ∧
    ("isi_ringkas", (0.50 : ℚ))
      ∈ unifiedFieldConfidences [("isi_ringkas", (none : Option JValue))] :=
  ⟨c9_null_zero_confidence.1 "tanpa apapun" "kepada" rfl,
   c9_null_zero_confidence.2.2.2.2 [("isi_ringkas", none)] "isi_ringkas"
     (by simp)⟩

/-! ## Claim C2: date-normalization lemmas -/

/-- `dropWhile` is the identity when no element satisfies the predicate. -/
theorem dropWhile_false_of (p : Char → Bool) (l : List Char)
    (h : ∀ c ∈ l, p c = false) : l.dropWhile p = l := by
  cases l with
  | nil => rfl
  | cons a t => simp [List.dropWhile_cons, h a (by simp)]

/-- `str.strip()` leaves a string of non-whitespace characters unchanged. -/
theorem pyStripList_eq_self (l : List Char)
    (h : ∀ c ∈ l, isPyWhitespace c = false) : pyStripList l = l := by
  unfold pyStripList
  rw [dropWhile_false_of _ l h]
  rw [dropWhile_false_of _ l.reverse (fun c hc => h c (List.mem_reverse.mp hc))]
  exact List.reverse_reverse l

/-- A digit character is a regex digit. -/
theorem dChar_isDigit {n : Nat} (h : n < 10) : (dChar n).isDigit = true := by
  interval_cases n <;> decide

/-- Digit characters decode to their value. -/
theorem dVal_dChar {n : Nat} (h : n < 10) : dVal (dChar n) = n := by
  interval_cases n <;> decide

/-- Digit characters are not whitespace. -/
theorem dChar_not_ws {n : Nat} (h : n < 10) : isPyWhitespace (dChar n) = false := by
  interval_cases n <;> decide

/-- `%Y` on four digit characters yields their value. -/
theorem pYear4_dChars (a b c d : Nat) (rest : List Char) (ha : a < 10)
    (hb : b < 10) (hc : c < 10) (hd : d < 10) :
    pYear4 (dChar a :: dChar b :: dChar c :: dChar d :: rest)
      = [(a * 1000 + b * 100 + c * 10 + d, rest)] := by
  simp [pYear4, dChar_isDigit ha, dChar_isDigit hb, dChar_isDigit hc,
    dChar_isDigit hd, dVal_dChar ha, dVal_dChar hb, dVal_dChar hc, dVal_dChar hd]

/-- `%m` on a zero-padded two-digit month: the first (two-digit) alternative
wins. -/
theorem pMonthNum_pad2 (m : Nat) (h1 : 1 ≤ m) (h2 : m ≤ 12) (rest : List Char) :
    ∃ junk, pMonthNum (pad2 m ++ rest) = (m, rest) :: junk := by
  interval_cases m <;> exact ⟨_, rfl⟩

/-- `%d` on a zero-padded two-digit day: the two-digit alternative wins. -/
theorem pDay_pad2 (d : Nat) (h1 : 1 ≤ d) (h2 : d ≤ 31) (rest : List Char) :
    ∃ junk, pDay (pad2 d ++ rest) = (d, rest) :: junk := by
  interval_cases d <;> exact ⟨_, rfl⟩

/-- A literal delimiter consumes itself. -/
theorem pLit_self (c : Char) (rest : List Char) :
    pLit c (c :: rest) = [((), rest)] := by
  simp [pLit]

/-- Months never exceed 31 days. -/
theorem daysInMonth_le (y m : Nat) : daysInMonth y m ≤ 31 := by
  unfold daysInMonth
  split_ifs <;> omega

/-- The `%Y-%m-%d` format parses its own rendering (four-digit years). -/
theorem fmtYmdDash_render (y m d : Nat) (hy1 : 1000 ≤ y) (hy2 : y ≤ 9999)
    (hm1 : 1 ≤ m) (hm2 : m ≤ 12) (hd1 : 1 ≤ d) (hd2 : d ≤ 31) :
    ∃ junk, fmtYmdDash ((renderYMD y m d).toList) = ((y, m, d), []) :: junk := by
  have hrl : (renderYMD y m d).toList =
      dChar (y / 1000 % 10) :: dChar (y / 100 % 10) :: dChar (y / 10 % 10) ::
      dChar (y % 10) :: '-' :: (pad2 m ++ '-' :: pad2 d) := by
    simp [renderYMD, renderYear, if_neg (by omega : ¬ y < 1000)]
  have hy4 : pYear4 (dChar (y / 1000 % 10) :: dChar (y / 100 % 10) ::
      dChar (y / 10 % 10) :: dChar (y % 10) :: '-' :: (pad2 m ++ '-' :: pad2 d))
      = [(y, '-' :: (pad2 m ++ '-' :: pad2 d))] := by
    rw [pYear4_dChars _ _ _ _ _ (by omega) (by omega) (by omega) (by omega)]
    have hrec : y / 1000 % 10 * 1000 + y / 100 % 10 * 100 + y / 10 % 10 * 10
        + y % 10 = y := by omega
    rw [hrec]
  obtain ⟨j1, hmn⟩ := pMonthNum_pad2 m hm1 hm2 ('-' :: pad2 d)
  obtain ⟨j2, hdy⟩ := pDay_pad2 d hd1 hd2 []
  rw [List.append_nil] at hdy
  apply Exists.intro
  rw [hrl]
  simp only [fmtYmdDash, pThen]
  rw [hy4]
  simp only [List.flatMap_cons, List.flatMap_nil, List.append_nil]
  rw [pLit_self]
  simp only [List.flatMap_cons, List.flatMap_nil, List.append_nil]
  rw [hmn]
  simp only [List.flatMap_cons]
  rw [pLit_self]
  simp only [List.flatMap_cons, List.flatMap_nil, List.append_nil]
  rw [hdy]
  simp only [List.flatMap_cons, List.singleton_append, List.cons_append]
  rfl

/-- `strptime` with the first format accepts the rendering of any valid
four-digit-year date. -/
theorem strptimeTry_render (y m d : Nat) (hy1 : 1000 ≤ y)
    (hv : isValidDate y m d = true) :
    strptimeTry fmtYmdDash ((renderYMD y m d).toList) = some (y, m, d) := by
  have hv2 := hv
  simp only [isValidDate, Bool.and_eq_true, decide_eq_true_eq] at hv2
  obtain ⟨⟨⟨⟨⟨h1y, h2y⟩, h1m⟩, h2m⟩, h1d⟩, h2d⟩ := hv2
  obtain ⟨junk, hj⟩ := fmtYmdDash_render y m d hy1 h2y h1m h2m h1d
    (le_trans h2d (daysInMonth_le y m))
  unfold strptimeTry
  rw [hj]
  simp [hv]

/-- Claim C2 settled against the code: the idempotence half and the
`DD/MM/YYYY` and unparseable cases hold, but "28 Januari 2026" does NOT
normalize — `%d %B %Y` / `%d %b %Y` match the C locale's English month
names (no `setlocale` is ever called), so the Indonesian month name fails
every format and the function returns null. -/
theorem c2_date_normalization :
    validate_date_format "28 Januari 2026" = none ∧
    validate_date_format "28/01/2026" = some "2026-01-28" ∧
    validate_date_format "soon" = none ∧
    ∀ y m d, 1000 ≤ y → isValidDate y m d = true →
      validate_date_format (renderYMD y m d) = some (renderYMD y m d) := by
  refine ⟨rfl, rfl, rfl, ?_⟩
  intro y m d hy hv
  have hrl : (renderYMD y m d).toList =
      dChar (y / 1000 % 10) :: dChar (y / 100 % 10) :: dChar (y / 10 % 10) ::
      dChar (y % 10) :: '-' :: (pad2 m ++ '-' :: pad2 d) := by
    simp [renderYMD, renderYear, if_neg (by omega : ¬ y < 1000)]
  have hne : renderYMD y m d ≠ "" := by
    intro he
    have h2 := congrArg String.toList he
    rw [hrl] at h2
    simp at h2
  have hnw : ∀ c ∈ (renderYMD y m d).toList, isPyWhitespace c = false := by
    rw [hrl]
    intro c hc
    simp only [pad2, List.mem_cons, List.mem_append, List.mem_singleton,
      List.not_mem_nil, or_false] at hc
    rcases hc with rfl | rfl | rfl | rfl | rfl | hc | rfl | hc
    · exact dChar_not_ws (by omega)
    · exact dChar_not_ws (by omega)
    · exact dChar_not_ws (by omega)
    · exact dChar_not_ws (by omega)
    · decide
    · rcases hc with rfl | rfl
      · exact dChar_not_ws (by omega)
      · exact dChar_not_ws (by omega)
    · decide
    · rcases hc with rfl | rfl
      · exact dChar_not_ws (by omega)
      · exact dChar_not_ws (by omega)
  have hstrip : pyStripList (renderYMD y m d).toList = (renderYMD y m d).toList :=
    pyStripList_eq_self _ hnw
  simp only [validate_date_format, if_neg hne, hstrip, strptimeFormats,
    tryFormats, strptimeTry_render y m d hy hv]

/-- Witness for C2's idempotence half: the canonical form "2026-01-28"
round-trips unchanged. -/
theorem c2_date_normalization_witness :
    validate_date_format (renderYMD 2026 1 28) = some (renderYMD 2026 1 28) :=
  c2_date_normalization.2.2.2 2026 1 28 (by norm_num) (by decide)

end Arkla
